import Mathlib

/-!
Verification of the authentication and session-integrity subsystem of
base-service: password hashing and verification (argon2id, PHC-format
encoding), JWT issuance and validation, the Redis-backed token validity
cache with revocation, the auth middleware, logout, and the two-tier rate
limiter.  The Go sources embedded here are
`internal/middleware/security.go`, `internal/middleware/jwt_cache.go`,
`internal/middleware/ratelimit.go` and `internal/common/common.go`.
-/

namespace BaseService

instance {ε α : Type} [DecidableEq ε] [DecidableEq α] : DecidableEq (Except ε α) :=
  fun a b =>
    match a, b with
    | Except.ok x, Except.ok y =>
      if h : x = y then isTrue (by rw [h])
      else isFalse (fun hc => h (by injection hc))
    | Except.error x, Except.error y =>
      if h : x = y then isTrue (by rw [h])
      else isFalse (fun hc => h (by injection hc))
    | Except.ok _, Except.error _ => isFalse (fun hc => by injection hc)
    | Except.error _, Except.ok _ => isFalse (fun hc => by injection hc)

/-! ## Go string primitives

`strings.Split(s, " ")`, `strings.EqualFold` and `strconv`-style integer
parsing (used by go-redis `.Int64()`), given structural implementations so
that every operation of the model is executable. -/

/-- `strings.Split(s, " ")` on the character list: the substrings between
occurrences of the separator, keeping empty fields. -/
def splitSpaceChars : List Char → List (List Char)
  | [] => [[]]
  | c :: rest =>
    match splitSpaceChars rest with
    | [] => [[]]
    | h :: t => if c = ' ' then [] :: h :: t else (c :: h) :: t

/-- `strings.Split(s, " ")`. -/
def goSplitSpace (s : String) : List String :=
  (splitSpaceChars s.data).map String.mk

/-- ASCII lowering, the case folding relevant to the `"Bearer"` scheme
comparison done with `strings.EqualFold`. -/
def asciiLowerChar (c : Char) : Char :=
  if 'A' ≤ c ∧ c ≤ 'Z' then Char.ofNat (c.toNat + 32) else c

/-- `strings.EqualFold(a, b)` (ASCII case-insensitive equality). -/
def eqFold (a b : String) : Bool :=
  decide (a.data.map asciiLowerChar = b.data.map asciiLowerChar)

def digitsToNat (cs : List Char) : Option Nat :=
  if cs.isEmpty then none
  else if cs.all Char.isDigit then
    some (cs.foldl (fun a c => a * 10 + (c.toNat - 48)) 0)
  else none

/-- Base-10 `strconv.ParseInt`: optional sign, at least one digit, nothing
else. -/
def goParseInt (s : String) : Option Int :=
  match s.data with
  | '-' :: rest => (digitsToNat rest).map (fun n => -(n : Int))
  | '+' :: rest => (digitsToNat rest).map (fun n => (n : Int))
  | cs => (digitsToNat cs).map (fun n => (n : Int))

/-! ## Remote store model (go-redis client operations used by jwt_cache.go)

The Redis server state is a list of live entries (key, value, remaining
TTL).  The `up` flag models reachability of the server: every round-trip
returns an error when the store is down.  Times and TTLs are integers
(seconds, say); `time.Until expiresAt = expiresAt - now`. -/

structure StoreEntry where
  key : String
  value : String
  ttl : Int
deriving Repr, DecidableEq

structure RedisStore where
  up : Bool
  entries : List StoreEntry
deriving Repr, DecidableEq

/-- `redis.Exists(ctx, key)`: number of existing keys among the arguments. -/
def redisExists (r : RedisStore) (k : String) : Except String Nat :=
  if r.up then Except.ok ((r.entries.filter (fun e => e.key = k)).length)
  else Except.error ("connection refused")

/-- `redis.Set(ctx, key, value, ttl)`: upsert of the key with a fresh TTL. -/
def redisSet (r : RedisStore) (k v : String) (ttl : Int) : Except String RedisStore :=
  if r.up then
    Except.ok { r with entries := ⟨k, v, ttl⟩ :: r.entries.filter (fun e => e.key ≠ k) }
  else Except.error ("connection refused")

/-- `redis.Get(ctx, key)`: `ok none` models the `redis.Nil` cache-miss reply. -/
def redisGet (r : RedisStore) (k : String) : Except String (Option String) :=
  if r.up then Except.ok ((r.entries.find? (fun e => e.key = k)).map (fun e => e.value))
  else Except.error ("connection refused")

/-- `redis.Del(ctx, key)`. -/
def redisDel (r : RedisStore) (k : String) : Except String RedisStore :=
  if r.up then Except.ok { r with entries := r.entries.filter (fun e => e.key ≠ k) }
  else Except.error ("connection refused")

/-! ## JWT cache (internal/middleware/jwt_cache.go) -/

inductive LogLevel where
  | debug | info | warn | error
deriving Repr, DecidableEq

structure LogEntry where
  level : LogLevel
  msg : String
deriving Repr, DecidableEq

/-- Stand-in for `sha256.Sum256` + `hex.EncodeToString` of `hashToken`
(jwt_cache.go:41): the hash itself is Go standard-library code; every claim
below uses only that the token-to-storage-key derivation is a fixed
deterministic function, which any concrete choice provides. -/
def hashToken (token : String) : String := token

/-- Key pattern `jwt:valid:%s`. -/
def jwtValidKey (tokenHash : String) : String := "jwt:valid:" ++ tokenHash

/-- Key pattern `jwt:blacklist:%s`. -/
def jwtBlacklistKey (tokenHash : String) : String := "jwt:blacklist:" ++ tokenHash

/-- `JWTCache`: the `redis` field models the `*redis.Client` pointer
(`none` = nil) together with the server state it reaches. -/
structure JWTCache where
  redis : Option RedisStore
  enabled : Bool
deriving Repr, DecidableEq

/-- `NewJWTCache(redisClient, enabled)`: a nil client or a false flag
yields `JWTCache{enabled: false}` with a nil client. -/
def NewJWTCache (redisClient : Option RedisStore) (enabled : Bool) : JWTCache :=
  match redisClient, enabled with
  | none, _ => ⟨none, false⟩
  | some _, false => ⟨none, false⟩
  | some r, true => ⟨some r, true⟩

/-- `IsBlacklisted(ctx, token)`: fails open (returns false) on a store
error, logging the degraded state; logs a warning on a blacklist hit. -/
def IsBlacklisted (c : JWTCache) (token : String) : Bool × List LogEntry :=
  match c.redis, c.enabled with
  | some r, true =>
    let key := jwtBlacklistKey (hashToken token)
    match redisExists r key with
    | Except.error _ => (false, [⟨LogLevel.error, "Failed to check token blacklist"⟩])
    | Except.ok n =>
      if 0 < n then (true, [⟨LogLevel.warn, "Blocked blacklisted token"⟩])
      else (false, [])
  | _, _ => (false, [])

/-- `BlacklistToken(ctx, token, expiresAt)`: no-op `ok` when disabled or when
the remaining TTL `expiresAt - now` is non-positive; otherwise inserts the
blacklist sentinel with that TTL, wrapping a store failure. -/
def BlacklistToken (c : JWTCache) (now : Int) (token : String) (expiresAt : Int) :
    Except String JWTCache :=
  match c.redis, c.enabled with
  | some r, true =>
    let key := jwtBlacklistKey (hashToken token)
    let ttl := expiresAt - now
    if ttl ≤ 0 then Except.ok c
    else
      match redisSet r key "1" ttl with
      | Except.error e => Except.error ("failed to blacklist token: " ++ e)
      | Except.ok r2 => Except.ok { c with redis := some r2 }
  | _, _ => Except.ok c

/-- `CacheValidToken(ctx, token, userID, expiresAt)`: same TTL policy on the
validity namespace, storing the user id (go-redis serialises the int64 as its
decimal string). -/
def CacheValidToken (c : JWTCache) (now : Int) (token : String) (userID : Int)
    (expiresAt : Int) : Except String JWTCache :=
  match c.redis, c.enabled with
  | some r, true =>
    let key := jwtValidKey (hashToken token)
    let ttl := expiresAt - now
    if ttl ≤ 0 then Except.ok c
    else
      match redisSet r key (toString userID) ttl with
      | Except.error e => Except.error e
      | Except.ok r2 => Except.ok { c with redis := some r2 }
  | _, _ => Except.ok c

/-- `GetCachedToken(ctx, token)`: returns `(0, false)` when disabled, on a
miss, on a store error, or when the stored value fails to parse as an int64
(`.Int64()`); otherwise the cached user id with `found = true`. -/
def GetCachedToken (c : JWTCache) (token : String) : Int × Bool :=
  match c.redis, c.enabled with
  | some r, true =>
    let key := jwtValidKey (hashToken token)
    match redisGet r key with
    | Except.error _ => (0, false)
    | Except.ok none => (0, false)
    | Except.ok (some v) =>
      match goParseInt v with
      | none => (0, false)
      | some uid => (uid, true)
  | _, _ => (0, false)

/-- `InvalidateToken(ctx, token)`: deletes from the validity namespace. -/
def InvalidateToken (c : JWTCache) (token : String) : Except String JWTCache :=
  match c.redis, c.enabled with
  | some r, true =>
    match redisDel r (jwtValidKey (hashToken token)) with
    | Except.error e => Except.error e
    | Except.ok r2 => Except.ok { c with redis := some r2 }
  | _, _ => Except.ok c

/-! ## Tokens and claims (internal/middleware/security.go) -/

/-- The `Claims` struct: custom fields plus the embedded
`jwt.RegisteredClaims` that `generateToken` populates.  `Option Int` models
the nullable `*jwt.NumericDate` pointers. -/
structure Claims where
  userId : Int
  userName : String
  tokenType : String
  expiresAt : Option Int
  issuedAt : Option Int
  notBefore : Option Int
  subject : String
  issuer : String
deriving Repr, DecidableEq

/-- A signed JWT, abstracting the wire string: the claims it carries, the
secret its HMAC signature was produced with, and whether its header names an
HMAC-family algorithm (`SigningMethodHS256` does). -/
structure JwtToken where
  claims : Claims
  secret : String
  hmacAlg : Bool
deriving Repr, DecidableEq

/-- `Prefix = "Bearer"` (security.go:122): used both as the bearer scheme and
as the `TokenType` value passed to `generateToken` for both token kinds. -/
def bearerScheme : String := "Bearer"

/-- `RefreshTokenKeyName = "refreshToken"` (security.go:123). -/
def refreshTokenKeyName : String := "refreshToken"

/-- `config.MiddlewareConfig.Token`. -/
structure TokenConfig where
  accessTokenSecret : String
  accessTokenExp : Int
  refreshTokenSecret : String
  refreshTokenExp : Int
deriving Repr, DecidableEq

/-- `generateToken(userId, username, tokenType, secretKey, expiration)`:
builds the claims with `expiresAt = now + expiration`, `issuedAt = notBefore
= now`, and signs with HS256 under `secretKey`. -/
def generateToken (now : Int) (userId : Int) (username tokenType secretKey : String)
    (expiration : Int) : JwtToken × Int :=
  let expiresAt := now + expiration
  (⟨⟨userId, username, tokenType, some expiresAt, some now, some now,
      toString userId, "client-side"⟩, secretKey, true⟩, expiresAt)

structure TokenPairT where
  accessToken : JwtToken
  refreshToken : JwtToken
  expiresAt : Int
  tokenType : String
deriving Repr, DecidableEq

/-- `GenerateTokenPair(userId, userName)`: both calls to `generateToken`
pass `Prefix` ("Bearer") as the token type; only the secret and the
expiration differ between the access and the refresh token. -/
def GenerateTokenPair (cfg : TokenConfig) (now : Int) (userId : Int) (userName : String) :
    TokenPairT :=
  let acc := generateToken now userId userName bearerScheme cfg.accessTokenSecret
    cfg.accessTokenExp
  let ref := generateToken now userId userName bearerScheme cfg.refreshTokenSecret
    cfg.refreshTokenExp
  ⟨acc.1, ref.1, acc.2, bearerScheme⟩

/-- The error taxonomy of security.go: the named sentinel errors, the
wrong-type `fmt.Errorf`, the revoked `errors.New`, and the residual wrapped
parse errors. -/
inductive AuthError where
  | missingToken
  | malformedToken
  | tokenExpired
  | invalidSignature
  | invalidToken
  | revoked
  | wrongTokenType (expected got : String)
  | parseFailed (reason : String)
deriving Repr, DecidableEq

/-- `err.Error()` for each member of the taxonomy. -/
def errText : AuthError → String
  | AuthError.missingToken => "missing token"
  | AuthError.malformedToken => "malformed token"
  | AuthError.tokenExpired => "token has expired"
  | AuthError.invalidSignature => "invalid token signature"
  | AuthError.invalidToken => "invalid token"
  | AuthError.revoked => "token has been revoked"
  | AuthError.wrongTokenType e g => "invalid token type: expected " ++ e ++ ", got " ++ g
  | AuthError.parseFailed r => "failed to parse token: " ++ r

/-- Expiry check of the golang-jwt v5 validator: an absent `exp` claim is
not an error by default. -/
def claimExpired (c : Claims) (now : Int) : Bool :=
  match c.expiresAt with
  | some e => decide (e ≤ now)
  | none => false

/-- Not-before check of the golang-jwt v5 validator. -/
def claimNotYetValid (c : Claims) (now : Int) : Bool :=
  match c.notBefore with
  | some n => decide (now < n)
  | none => false

/-- `ValidateToken(tokenString, secretToken, expectedType)` on an already
parsed token: the keyfunc rejects non-HMAC algorithm headers; the library
verifies the signature, then validates exp and nbf; finally the code compares
`claims.TokenType` with `expectedType`.  Signature and nbf failures surface
as the wrapped `failed to parse token` error, expiry as `ErrTokenExpired`. -/
def validateToken (now : Int) (tok : JwtToken) (secretToken expectedType : String) :
    Except AuthError Claims :=
  if tok.hmacAlg = false then Except.error (AuthError.parseFailed ("invalid token signature"))
  else if tok.secret ≠ secretToken then
    Except.error (AuthError.parseFailed ("token signature is invalid"))
  else if claimExpired tok.claims now then Except.error AuthError.tokenExpired
  else if claimNotYetValid tok.claims now then
    Except.error (AuthError.parseFailed ("token is not valid yet"))
  else if tok.claims.tokenType ≠ expectedType then
    Except.error (AuthError.wrongTokenType expectedType tok.claims.tokenType)
  else Except.ok tok.claims

/-- `ValidateToken` on a wire string: `decode` is the JWT parsing
environment mapping the compact serialisation back to the signed token
(`none` = undecodable, the library's `ErrTokenMalformed`). -/
def validateTokenStr (decode : String → Option JwtToken) (now : Int)
    (tokenString secretToken expectedType : String) : Except AuthError Claims :=
  match decode tokenString with
  | none => Except.error AuthError.malformedToken
  | some tok => validateToken now tok secretToken expectedType

/-! ## HTTP responses (internal/common/common.go, security.go handlers) -/

/-- The envelope produced by `common.ResponseApi` together with the HTTP
status it is sent with.  `ResponseApi` always calls
`c.Status(fiber.StatusOK)`, so the status is 200 both for success and for
error envelopes. -/
structure ApiResponse where
  httpStatus : Nat
  code : String
  msg : String
deriving Repr, DecidableEq

/-- `common.ResponseApi(c, data, err)` for the error case used by
`handleError`: HTTP 200, code `ERROR`, msg `err.Error()`. -/
def responseApiErr (e : AuthError) : ApiResponse :=
  ⟨200, "ERROR", errText e⟩

/-- The `status` variable computed (and only logged) by
`AuthenHandler.handleError`: 400 for missing/malformed tokens, 401
otherwise. -/
def handleErrorLoggedStatus : AuthError → Nat
  | AuthError.missingToken => 400
  | AuthError.malformedToken => 400
  | _ => 401

/-- `AuthenHandler.handleError(c, err)`: after computing and logging the
status it delegates the response to `common.ResponseApi`. -/
def handleError (e : AuthError) : ApiResponse := responseApiErr e

/-- Ad-hoc JSON replies built directly with `c.Status(...).JSON(fiber.Map{...})`
(Logout, expireJwtCache, rate limiters). -/
structure JsonResp where
  httpStatus : Nat
  errCode : Option String
  message : String
deriving Repr, DecidableEq

/-! ## AuthMiddleware (security.go:268) -/

/-- The request-scope values published with `c.Locals`. -/
structure Locals where
  user : Option Claims
  userId : Option Int
  username : Option String
deriving Repr, DecidableEq

/-- Outcome of the middleware: abort the request with an error response
(recording which error aborted it), or call `c.Next()` with the published
locals and the possibly-updated cache. -/
inductive AuthOutcome where
  | abort (e : AuthError) (resp : ApiResponse)
  | next (locals : Locals) (cache : Option JWTCache)
deriving Repr, DecidableEq

/-- Lines 272-282 of AuthMiddleware: read the Authorization header, split on
a single space, require exactly two fields with a case-insensitive `Bearer`
scheme. -/
def extractBearer (auth : String) : Except AuthError String :=
  if auth = "" then Except.error AuthError.missingToken
  else
    match goSplitSpace auth with
    | [scheme, tok] =>
      if eqFold scheme bearerScheme then Except.ok tok
      else Except.error AuthError.malformedToken
    | _ => Except.error AuthError.malformedToken

/-- The zero-valued `&Claims{UserId: userID}` literal of the cache-hit
path. -/
def cacheHitClaims (userID : Int) : Claims :=
  ⟨userID, "", "", none, none, none, "", ""⟩

/-- `AuthenHandler.AuthMiddleware()`: extract the bearer token; reject
blacklisted tokens; serve validity-cache hits without validation (publishing
only `user` and `user_id`); otherwise validate against the access secret with
expected type `Prefix`, best-effort cache the result, and publish `user`,
`user_id` and `username`. -/
def authMiddleware (cfg : TokenConfig) (decode : String → Option JwtToken)
    (cache : Option JWTCache) (now : Int) (authHeader : String) : AuthOutcome :=
  match extractBearer authHeader with
  | Except.error e => AuthOutcome.abort e (handleError e)
  | Except.ok tokenString =>
    let blacklisted :=
      match cache with
      | some jc => (IsBlacklisted jc tokenString).1
      | none => false
    if blacklisted then AuthOutcome.abort AuthError.revoked (handleError AuthError.revoked)
    else
      let cacheHit :=
        match cache with
        | some jc =>
          let found := GetCachedToken jc tokenString
          if found.2 then some found.1 else none
        | none => none
      match cacheHit with
      | some userID =>
        AuthOutcome.next ⟨some (cacheHitClaims userID), some userID, none⟩ cache
      | none =>
        match validateTokenStr decode now tokenString cfg.accessTokenSecret bearerScheme with
        | Except.error e => AuthOutcome.abort e (handleError e)
        | Except.ok claims =>
          let cache2 :=
            match cache, claims.expiresAt with
            | some jc, some exp =>
              match CacheValidToken jc now tokenString claims.userId exp with
              | Except.ok jc2 => some jc2
              | Except.error _ => some jc
            | c, _ => c
          AuthOutcome.next ⟨some claims, some claims.userId, some claims.userName⟩ cache2

/-- `GetUserNameFromContext`: fails when the `username` local was never
set. -/
def getUserNameFromContext (l : Locals) : Except String String :=
  match l.username with
  | none => Except.error ("user not found in context")
  | some u => Except.ok u

/-- `GetUserIdFromContext`. -/
def getUserIdFromContext (l : Locals) : Except String Int :=
  match l.userId with
  | none => Except.error ("user not found in context")
  | some u => Except.ok u

/-! ## Logout (security.go:404) -/

/-- `AuthenHandler.expireJwtCache`: a `BlacklistToken` failure is returned
to the caller as HTTP 500 `logout_failed`; the `InvalidateToken` error is
discarded.  The caller guarantees `claims.expiresAt` is present. -/
def expireJwtCache (jc : JWTCache) (now : Int) (tokenString : String) (claims : Claims) :
    JsonResp × JWTCache :=
  match BlacklistToken jc now tokenString (claims.expiresAt.getD 0) with
  | Except.error _ => (⟨500, some "logout_failed", "Failed to complete logout"⟩, jc)
  | Except.ok jc2 =>
    let jc3 :=
      match InvalidateToken jc2 tokenString with
      | Except.ok x => x
      | Except.error _ => jc2
    (⟨200, none, "Logged out successfully"⟩, jc3)

/-- `AuthenHandler.Logout`: header checks (with their own 400 replies),
full validation of the access token (401 reply on failure), then
`expireJwtCache` when the cache pointer is non-nil and the claims carry an
expiry; otherwise acknowledge with a warning that revocation was
impossible. -/
def logout (cfg : TokenConfig) (decode : String → Option JwtToken)
    (cache : Option JWTCache) (now : Int) (authHeader : String) :
    JsonResp × Option JWTCache :=
  if authHeader = "" then (⟨400, some "missing_token", "No token provided"⟩, cache)
  else
    match goSplitSpace authHeader with
    | [scheme, tokenString] =>
      if eqFold scheme bearerScheme then
        match validateTokenStr decode now tokenString cfg.accessTokenSecret bearerScheme with
        | Except.error _ => (⟨401, some "invalid_token", "Invalid or expired token"⟩, cache)
        | Except.ok claims =>
          match cache, claims.expiresAt with
          | some jc, some _ =>
            let out := expireJwtCache jc now tokenString claims
            (out.1, some out.2)
          | c, _ =>
            (⟨200, none, "Logout acknowledged (caching disabled, token will expire naturally)"⟩, c)
      else (⟨400, some "invalid_token_format", "Invalid token format"⟩, cache)
    | _ => (⟨400, some "invalid_token_format", "Invalid token format"⟩, cache)

/-! ## Password hashing (security.go:476-575)

`argon2.IDKey` is external library code (`golang.org/x/crypto/argon2`), so
the key-derivation function is a parameter of `hashPassword` and
`verifyPassword`; its Go argument order `(password, salt, time, memory,
threads, keyLen)` is kept.  Bytes are `Nat` values below 256. -/

def argon2Time : Nat := 3

def argon2Memory : Nat := 64 * 1024

def argon2Threads : Nat := 2

def argon2KeyLength : Nat := 32

def argon2SaltLength : Nat := 16

/-- `argon2.Version` = 0x13. -/
def argon2Version : Nat := 19

/-- The `base64.RawStdEncoding` alphabet. -/
def base64Alphabet : List Char :=
  "ABCDEFGHIJKLMNOPQRSTUVWXYZabcdefghijklmnopqrstuvwxyz0123456789+/".data

def base64Digit (n : Nat) : Char := base64Alphabet.getD n 'A'

/-- `base64.RawStdEncoding.EncodeToString`: unpadded standard base64. -/
def base64RawStdEncode : List Nat → List Char
  | [] => []
  | [b1] => [base64Digit (b1 / 4), base64Digit (b1 % 4 * 16)]
  | [b1, b2] =>
    [base64Digit (b1 / 4), base64Digit (b1 % 4 * 16 + b2 / 16), base64Digit (b2 % 16 * 4)]
  | b1 :: b2 :: b3 :: rest =>
    base64Digit (b1 / 4) :: base64Digit (b1 % 4 * 16 + b2 / 16) ::
      base64Digit (b2 % 16 * 4 + b3 / 64) :: base64Digit (b3 % 64) ::
        base64RawStdEncode rest

def base64Index (c : Char) : Option Nat :=
  base64Alphabet.indexOf? c

/-- `base64.RawStdEncoding.DecodeString`: inverse of the unpadded encoding,
rejecting invalid characters and impossible lengths. -/
def base64RawStdDecode : List Char → Option (List Nat)
  | [] => some []
  | [_] => none
  | [c1, c2] => do
    let n1 ← base64Index c1
    let n2 ← base64Index c2
    if n2 % 16 = 0 then some [n1 * 4 + n2 / 16] else none
  | [c1, c2, c3] => do
    let n1 ← base64Index c1
    let n2 ← base64Index c2
    let n3 ← base64Index c3
    if n3 % 4 = 0 then some [n1 * 4 + n2 / 16, n2 % 16 * 16 + n3 / 4] else none
  | c1 :: c2 :: c3 :: c4 :: rest => do
    let n1 ← base64Index c1
    let n2 ← base64Index c2
    let n3 ← base64Index c3
    let n4 ← base64Index c4
    let tail ← base64RawStdDecode rest
    some ([n1 * 4 + n2 / 16, n2 % 16 * 16 + n3 / 4, n3 % 4 * 64 + n4] ++ tail)

/-- `subtle.ConstantTimeCompare` returns 1 exactly when the two byte slices
have equal length and contents (the constant-time aspect is a timing
property outside the functional model). -/
def constantTimeCompare (a b : List Nat) : Bool := decide (a = b)

/-- The `fmt.Sprintf("$argon2id$v=%d$m=%d,t=%d,p=%d$%s$%s", ...)` encoding
of `HashPassword`. -/
def phcEncode (b64Salt b64Hash : String) : String :=
  "$argon2id$v=" ++ toString argon2Version ++ "$m=" ++ toString argon2Memory ++
    ",t=" ++ toString argon2Time ++ ",p=" ++ toString argon2Threads ++ "$" ++ b64Salt ++
    "$" ++ b64Hash

/-- `HashPassword(password)`: reject the empty password, then encode the
argon2id key of the password under a fresh random salt (the salt, drawn from
`crypto/rand`, is a parameter here) in PHC format
`$argon2id$v=19$m=65536,t=3,p=2$<b64 salt>$<b64 key>`. -/
def hashPassword (idKey : String → List Nat → Nat → Nat → Nat → Nat → List Nat)
    (salt : List Nat) (password : String) : Except String String :=
  if password = "" then Except.error ("password cannot be empty")
  else
    let hash := idKey password salt argon2Time argon2Memory argon2Threads argon2KeyLength
    Except.ok (phcEncode (String.mk (base64RawStdEncode salt))
      (String.mk (base64RawStdEncode hash)))

/-! ### Go `fmt.Sscanf` with format `"$argon2id$v=%d$m=%d,t=%d,p=%d$%s$%s"`

Faithful to the `fmt` scanning rules used by `VerifyPassword`: literal
format characters must match the input exactly, `%d` skips leading spaces
and reads an optionally-signed digit run, and `%s` skips leading spaces and
then reads a *maximal run of non-space characters* — it does not stop at
`$`. -/

/-- `unicode.IsSpace` restricted to the ASCII range, which covers every
character `HashPassword` can emit. -/
def isGoSpace (c : Char) : Bool :=
  c = ' ' || c = '\t' || c = '\n' || c = '\r' || c = '\x0b' || c = '\x0c'

/-- Match a literal run of format characters. -/
def matchLit : List Char → List Char → Option (List Char)
  | [], rest => some rest
  | _ :: _, [] => none
  | l :: ls, c :: cs => if c = l then matchLit ls cs else none

/-- The `%d` verb. -/
def scanInt (cs : List Char) : Option (Int × List Char) :=
  let cs1 := cs.dropWhile isGoSpace
  let signed :=
    match cs1 with
    | '-' :: t => (true, t)
    | '+' :: t => (false, t)
    | t => (false, t)
  let digits := signed.2.takeWhile Char.isDigit
  let rest := signed.2.dropWhile Char.isDigit
  if digits.isEmpty then none
  else
    let n : Nat := digits.foldl (fun acc c => acc * 10 + (c.toNat - 48)) 0
    some (if signed.1 then -(n : Int) else (n : Int), rest)

/-- The `%s` verb: maximal non-space token. -/
def scanTok (cs : List Char) : Option (String × List Char) :=
  let cs1 := cs.dropWhile isGoSpace
  let tok := cs1.takeWhile (fun c => !isGoSpace c)
  if tok.isEmpty then none
  else some (String.mk tok, cs1.dropWhile (fun c => !isGoSpace c))

/-- The tail of the format after the `p=%d` field: literal `$`, `%s` for the
salt, literal `$`, `%s` for the hash. -/
def scanSaltHash (cs : List Char) : Option (String × String) :=
  (matchLit "$".data cs).bind fun r1 =>
    (scanTok r1).bind fun st =>
      (matchLit "$".data st.2).bind fun r2 =>
        (scanTok r2).map fun sh => (st.1, sh.1)

/-- `fmt.Sscanf(encodedHash, "$argon2id$v=%d$m=%d,t=%d,p=%d$%s$%s", ...)`:
`some` exactly when all six operands are assigned without error. -/
def sscanfArgon2 (input : String) : Option (Int × Int × Int × Int × String × String) :=
  (matchLit "$argon2id$v=".data input.data).bind fun r1 =>
    (scanInt r1).bind fun v =>
      (matchLit "$m=".data v.2).bind fun r2 =>
        (scanInt r2).bind fun m =>
          (matchLit ",t=".data m.2).bind fun r3 =>
            (scanInt r3).bind fun t =>
              (matchLit ",p=".data t.2).bind fun r4 =>
                (scanInt r4).bind fun p =>
                  (scanSaltHash p.2).map fun sh =>
                    (v.1, m.1, t.1, p.1, sh.1, sh.2)

/-- `VerifyPassword(password, encodedHash)`: empty-input checks, `Sscanf`
parse of the PHC string, base64 decode of salt and hash, re-derivation with
the parsed parameters and the *stored* salt, constant-time comparison. -/
def verifyPassword (idKey : String → List Nat → Nat → Nat → Nat → Nat → List Nat)
    (password encodedHash : String) : Except String Bool :=
  if password = "" then Except.error ("password cannot be empty")
  else if encodedHash = "" then Except.error ("hash cannot be empty")
  else
    match sscanfArgon2 encodedHash with
    | none => Except.error ("invalid hash format")
    | some parsed =>
      let memory := parsed.2.1
      let time := parsed.2.2.1
      let threads := parsed.2.2.2.1
      let salt := parsed.2.2.2.2.1
      let hash := parsed.2.2.2.2.2
      match base64RawStdDecode salt.data with
      | none => Except.error ("failed to decode salt")
      | some decodedSalt =>
        match base64RawStdDecode hash.data with
        | none => Except.error ("failed to decode hash")
        | some decodedHash =>
          let passwordHash :=
            idKey password decodedSalt time.toNat memory.toNat threads.toNat decodedHash.length
          if constantTimeCompare decodedHash passwordHash then Except.ok true
          else Except.ok false

/-! ## Rate limiting (internal/middleware/ratelimit.go) -/

/-- `config.RateLimitConfig` (the fields the two filters read). -/
structure RateLimitConfig where
  enabled : Bool
  max : Nat
  expiration : Int
  limitReached : String
  authEnabled : Bool
  authMax : Nat
  authExpiration : Int
deriving Repr, DecidableEq

/-- Default resolution in `RateLimitFilter`: `max = 0` becomes 100. -/
def resolvedMax (c : RateLimitConfig) : Nat := if c.max = 0 then 100 else c.max

/-- Default resolution in `RateLimitFilter`: zero window becomes one
minute (here in seconds). -/
def resolvedExpiration (c : RateLimitConfig) : Int :=
  if c.expiration = 0 then 60 else c.expiration

def resolvedLimitReached (c : RateLimitConfig) : String :=
  if c.limitReached = "" then "Too many requests, please try again later." else c.limitReached

/-- Default resolution in `AuthRateLimitFilter`: `authMax = 0` becomes 5. -/
def resolvedAuthMax (c : RateLimitConfig) : Nat := if c.authMax = 0 then 5 else c.authMax

def resolvedAuthExpiration (c : RateLimitConfig) : Int :=
  if c.authExpiration = 0 then 60 else c.authExpiration

/-- The `LimitReached` reply of the general tier: 429 with the
`rate_limit_exceeded` payload. -/
def limitReachedResponse (c : RateLimitConfig) : JsonResp :=
  ⟨429, some "rate_limit_exceeded", resolvedLimitReached c⟩

/-- The `LimitReached` reply of the auth tier: 429 with the
`auth_rate_limit_exceeded` payload (Go renders the window duration with
`%v`; the rendering is abbreviated to the integer here). -/
def authLimitReachedResponse (c : RateLimitConfig) : JsonResp :=
  ⟨429, some "auth_rate_limit_exceeded",
    "Too many authentication attempts. Please try again in " ++
      toString (resolvedAuthExpiration c) ++ "."⟩

/-- Modelled from the spec: the per-key window counter of the fiber
`limiter` middleware, which is a vendored dependency and not part of this
repository's sources.  Spec §4.5: "`Allow(tier, key)`... atomically
increments the counter for the current window; if the post-increment value
exceeds `max`, the request is rejected and the counter is left unchanged
from the caller's perspective"; §3: the counter entry's "TTL equals the
window length, giving automatic reset". -/
structure WindowState where
  count : Nat
  windowExpiry : Int
deriving Repr, DecidableEq

/-- Modelled from the spec: one `Allow` call at time `now` for a single
key.  An expired window (its TTL has elapsed) restarts empty with expiry
`now + window` before the increment is attempted. -/
def limiterAllow (maxReq : Nat) (window : Int) (s : WindowState) (now : Int) :
    Bool × WindowState :=
  let s1 := if s.windowExpiry ≤ now then WindowState.mk 0 (now + window) else s
  if maxReq < s1.count + 1 then (false, s1)
  else (true, WindowState.mk (s1.count + 1) s1.windowExpiry)

/-- Iterated `Allow` calls for one key at the given times. -/
def limiterRun (maxReq : Nat) (window : Int) : WindowState → List Int → List Bool × WindowState
  | s, [] => ([], s)
  | s, t :: ts =>
    let step := limiterAllow maxReq window s t
    let rest := limiterRun maxReq window step.2 ts
    (step.1 :: rest.1, rest.2)

/-! ## Helper lemmas -/

theorem optionBindNone {α β : Type} (x : Option α) (f : α → Option β)
    (h : ∀ a, x = some a → f a = none) : x.bind f = none := by
  cases hx : x with
  | none => rfl
  | some a => simpa using h a hx

theorem dropWhileHead {α : Type} (p : α → Bool) (l : List α) :
    l.dropWhile p = [] ∨ ∃ a t, l.dropWhile p = a :: t ∧ p a = false := by
  induction l with
  | nil => exact Or.inl rfl
  | cons x xs ih =>
    by_cases h : p x
    · simpa [List.dropWhile_cons, h] using ih
    · right
      exact ⟨x, xs, by simp [List.dropWhile_cons, h], by simp [h]⟩

/-- After the `%s` verb has consumed its maximal non-space run, the next
input character (if any) is a space, so the literal `$` that the format
demands next can never match. -/
theorem matchDollar_after_scanTok (cs : List Char) (st : String × List Char)
    (h : scanTok cs = some st) : matchLit "$".data st.2 = none := by
  unfold scanTok at h
  by_cases he : ((cs.dropWhile isGoSpace).takeWhile (fun c => !isGoSpace c)).isEmpty
  · simp [he] at h
  · rw [if_neg he] at h
    have hrest : st.2 = (cs.dropWhile isGoSpace).dropWhile (fun c => !isGoSpace c) := by
      cases h; rfl
    rcases dropWhileHead (fun c => !isGoSpace c) (cs.dropWhile isGoSpace) with h0 | ⟨a, t, h1, h2⟩
    · rw [hrest, h0]; rfl
    · rw [hrest, h1]
      have ha : isGoSpace a = true := by
        cases hga : isGoSpace a
        · rw [hga] at h2; simp at h2
        · rfl
      have hne : a ≠ '$' := by
        intro hEq
        rw [hEq] at ha
        exact absurd ha (by decide)
      show matchLit ['$'] (a :: t) = none
      unfold matchLit
      rw [if_neg hne]

theorem scanSaltHash_none (cs : List Char) : scanSaltHash cs = none := by
  unfold scanSaltHash
  apply optionBindNone
  intro r1 _
  apply optionBindNone
  intro st hst
  rw [matchDollar_after_scanTok r1 st hst]
  rfl

/-- The `Sscanf` call of `VerifyPassword` cannot succeed on any input: the
first `%s` consumes through the `$` separating salt from hash, leaving
nothing for the following literal `$` to match. -/
theorem sscanfArgon2_none (input : String) : sscanfArgon2 input = none := by
  unfold sscanfArgon2
  apply optionBindNone; intro r1 _
  apply optionBindNone; intro v _
  apply optionBindNone; intro r2 _
  apply optionBindNone; intro m _
  apply optionBindNone; intro r3 _
  apply optionBindNone; intro t _
  apply optionBindNone; intro r4 _
  apply optionBindNone; intro p _
  rw [scanSaltHash_none]
  rfl

theorem phcEncodeNeEmpty (b64Salt b64Hash : String) : phcEncode b64Salt b64Hash ≠ "" := by
  intro h
  have h2 := congrArg String.data h
  simp [phcEncode, String.data_append] at h2

/-! ## C1 -/

/-- C1: the claimed password-hasher round trip `Verify(p, Hash(p)) = true`
fails for every password: `HashPassword` succeeds on any non-empty
password, but `VerifyPassword` always returns the `invalid hash format`
error on the produced digest, because `fmt.Sscanf`'s `%s` verb reads a
maximal non-space token and therefore swallows `<salt>$<hash>` whole,
leaving the format's next literal `$` unmatched. -/
theorem c1_password_roundtrip_broken
    (idKey : String → List Nat → Nat → Nat → Nat → Nat → List Nat)
    (salt : List Nat) (p : String) (hp : p ≠ "") :
    ∃ enc, hashPassword idKey salt p = Except.ok enc ∧
      verifyPassword idKey p enc = Except.error "invalid hash format" := by
  refine ⟨phcEncode (String.mk (base64RawStdEncode salt))
    (String.mk (base64RawStdEncode
      (idKey p salt argon2Time argon2Memory argon2Threads argon2KeyLength))), ?_, ?_⟩
  · unfold hashPassword
    rw [if_neg hp]
  · unfold verifyPassword
    rw [if_neg hp, if_neg (phcEncodeNeEmpty _ _), sscanfArgon2_none]

/-- C1 witness: concrete instantiation with a stub key-derivation
function. -/
theorem c1_password_roundtrip_broken_witness :
    ∃ enc,
      hashPassword (fun _ _ _ _ _ _ => List.replicate 4 7) [0, 0, 0] "a" = Except.ok enc ∧
      verifyPassword (fun _ _ _ _ _ _ => List.replicate 4 7) "a" enc =
        Except.error "invalid hash format" :=
  c1_password_roundtrip_broken (fun _ _ _ _ _ _ => List.replicate 4 7) [0, 0, 0] "a" (by decide)

/-! ## Middleware lemmas -/

theorem extractBearer_error (auth : String) (e : AuthError)
    (h : extractBearer auth = Except.error e) :
    e = AuthError.missingToken ∨ e = AuthError.malformedToken := by
  unfold extractBearer at h
  split at h
  · injection h with h
    exact Or.inl h.symm
  · split at h
    · split at h
      · exact absurd h (by simp)
      · injection h with h
        exact Or.inr h.symm
    · injection h with h
      exact Or.inr h.symm

theorem extractBearer_ok (auth tok : String) (h : extractBearer auth = Except.ok tok) :
    auth ≠ "" ∧ ∃ s, goSplitSpace auth = [s, tok] ∧ eqFold s bearerScheme = true := by
  unfold extractBearer at h
  split at h
  · exact absurd h (by simp)
  · rename_i hne
    refine ⟨hne, ?_⟩
    split at h
    · rename_i s t hs
      split at h
      · rename_i hf
        injection h with h
        exact ⟨s, by rw [hs, h], hf⟩
      · exact absurd h (by simp)
    · exact absurd h (by simp)

theorem validateToken_error_ne_revoked (now : Int) (tok : JwtToken) (sec et : String)
    (e : AuthError) (h : validateToken now tok sec et = Except.error e) :
    e ≠ AuthError.revoked := by
  unfold validateToken at h
  repeat' split at h
  all_goals first
  | (injection h with h; (try subst h); simp)
  | injection h

theorem validateTokenStr_error_ne_revoked (decode : String → Option JwtToken) (now : Int)
    (ts sec et : String) (e : AuthError)
    (h : validateTokenStr decode now ts sec et = Except.error e) :
    e ≠ AuthError.revoked := by
  unfold validateTokenStr at h
  split at h
  · injection h with h
    subst h
    simp
  · exact validateToken_error_ne_revoked _ _ _ _ _ h

/-! ## C2 -/

/-- C2: a request whose bearer token has an entry in the revocation
namespace of a reachable store is aborted as revoked by `AuthMiddleware`,
for every content of the validity cache (the store `r` is arbitrary apart
from containing the blacklist key): the `IsBlacklisted` check runs before
the `GetCachedToken` lookup. -/
theorem c2_revocation_precedes_cache (cfg : TokenConfig) (decode : String → Option JwtToken)
    (r : RedisStore) (now : Int) (authHeader tok : String)
    (hex : extractBearer authHeader = Except.ok tok) (hup : r.up = true)
    (hbl : (r.entries.filter (fun e => e.key = jwtBlacklistKey (hashToken tok))).length ≠ 0) :
    authMiddleware cfg decode (some ⟨some r, true⟩) now authHeader =
      AuthOutcome.abort AuthError.revoked (handleError AuthError.revoked) := by
  have hb : (IsBlacklisted ⟨some r, true⟩ tok).1 = true := by
    unfold IsBlacklisted redisExists
    simp only [hup, if_true]
    simp [Nat.pos_of_ne_zero hbl]
  unfold authMiddleware
  rw [hex]
  simp [hb]

/-- C2 witness: a store holding exactly one revocation entry. -/
theorem c2_revocation_precedes_cache_witness :
    authMiddleware ⟨"s", 10, "r", 20⟩ (fun _ => none)
      (some ⟨some ⟨true, [⟨jwtBlacklistKey (hashToken "tok"), "1", 5⟩]⟩, true⟩) 0 "Bearer tok" =
      AuthOutcome.abort AuthError.revoked (handleError AuthError.revoked) :=
  c2_revocation_precedes_cache ⟨"s", 10, "r", 20⟩ (fun _ => none)
    ⟨true, [⟨jwtBlacklistKey (hashToken "tok"), "1", 5⟩]⟩ 0 "Bearer tok" "tok"
    (by decide) (by decide) (by decide)

/-! ## C3 -/

/-- C3: the claimed token-kind separation does not exist in the code: both
calls in `GenerateTokenPair` mint tokens with `TokenType = Prefix`
("Bearer"), so the refresh token's embedded kind equals the access kind;
the kind comparison in `ValidateToken` therefore never distinguishes them,
and whenever the two configured secrets coincide, a refresh token validates
successfully as an access token.  The code's own refresh path, which
expects kind `refreshToken`, consequently rejects every minted token. -/
theorem c3_refresh_kind_not_distinct (cfg : TokenConfig) (now now2 userId : Int)
    (userName : String)
    (hsec : cfg.accessTokenSecret = cfg.refreshTokenSecret)
    (hexp : now2 < now + cfg.refreshTokenExp) (hnbf : now ≤ now2) :
    (GenerateTokenPair cfg now userId userName).refreshToken.claims.tokenType = bearerScheme ∧
    (GenerateTokenPair cfg now userId userName).accessToken.claims.tokenType =
      (GenerateTokenPair cfg now userId userName).refreshToken.claims.tokenType ∧
    validateToken now2 (GenerateTokenPair cfg now userId userName).refreshToken
      cfg.accessTokenSecret bearerScheme =
      Except.ok (GenerateTokenPair cfg now userId userName).refreshToken.claims ∧
    validateToken now2 (GenerateTokenPair cfg now userId userName).refreshToken
      cfg.refreshTokenSecret refreshTokenKeyName =
      Except.error (AuthError.wrongTokenType refreshTokenKeyName bearerScheme) := by
  have h1 : ¬ (now + cfg.refreshTokenExp ≤ now2) := by omega
  have h2 : ¬ (now2 < now) := by omega
  have h3 : bearerScheme ≠ refreshTokenKeyName := by decide
  refine ⟨rfl, rfl, ?_, ?_⟩
  · unfold GenerateTokenPair generateToken validateToken claimExpired claimNotYetValid
    simp [hsec, h1, h2]
  · unfold GenerateTokenPair generateToken validateToken claimExpired claimNotYetValid
    simp [h1, h2, h3]

/-- C3 witness: equal secrets, fresh tokens at time 0. -/
theorem c3_refresh_kind_not_distinct_witness :
    (GenerateTokenPair ⟨"s", 10, "s", 20⟩ 0 7 "alice").refreshToken.claims.tokenType =
      bearerScheme ∧
    (GenerateTokenPair ⟨"s", 10, "s", 20⟩ 0 7 "alice").accessToken.claims.tokenType =
      (GenerateTokenPair ⟨"s", 10, "s", 20⟩ 0 7 "alice").refreshToken.claims.tokenType ∧
    validateToken 0 (GenerateTokenPair ⟨"s", 10, "s", 20⟩ 0 7 "alice").refreshToken
      "s" bearerScheme =
      Except.ok (GenerateTokenPair ⟨"s", 10, "s", 20⟩ 0 7 "alice").refreshToken.claims ∧
    validateToken 0 (GenerateTokenPair ⟨"s", 10, "s", 20⟩ 0 7 "alice").refreshToken
      "s" refreshTokenKeyName =
      Except.error (AuthError.wrongTokenType refreshTokenKeyName bearerScheme) :=
  c3_refresh_kind_not_distinct ⟨"s", 10, "s", 20⟩ 0 0 7 "alice" rfl (by decide) (by decide)

/-! ## C4 -/

/-- C4: TTL policy of the validity store with caching enabled and the store
reachable: an already-expired `expiresAt` makes both `BlacklistToken` and
`CacheValidToken` succeed without touching the store, and a future
`expiresAt` inserts exactly one entry whose TTL is `expiresAt - now`. -/
theorem c4_ttl_policy (r : RedisStore) (now expiresAt userID : Int) (token : String)
    (hup : r.up = true) :
    (expiresAt ≤ now →
      BlacklistToken ⟨some r, true⟩ now token expiresAt = Except.ok ⟨some r, true⟩ ∧
      CacheValidToken ⟨some r, true⟩ now token userID expiresAt =
        Except.ok ⟨some r, true⟩) ∧
    (now < expiresAt →
      BlacklistToken ⟨some r, true⟩ now token expiresAt =
        Except.ok ⟨some ⟨r.up,
          ⟨jwtBlacklistKey (hashToken token), "1", expiresAt - now⟩ ::
            r.entries.filter (fun e => e.key ≠ jwtBlacklistKey (hashToken token))⟩, true⟩ ∧
      CacheValidToken ⟨some r, true⟩ now token userID expiresAt =
        Except.ok ⟨some ⟨r.up,
          ⟨jwtValidKey (hashToken token), toString userID, expiresAt - now⟩ ::
            r.entries.filter (fun e => e.key ≠ jwtValidKey (hashToken token))⟩, true⟩) := by
  constructor
  · intro h
    have httl : expiresAt - now ≤ 0 := by omega
    constructor
    · unfold BlacklistToken
      simp [httl]
    · unfold CacheValidToken
      simp [httl]
  · intro h
    have httl : ¬ (expiresAt - now ≤ 0) := by omega
    constructor
    · unfold BlacklistToken redisSet
      simp [httl, hup]
    · unfold CacheValidToken redisSet
      simp [httl, hup]

/-- C4 witness: one expired and one live insertion on a concrete store. -/
theorem c4_ttl_policy_witness :
    BlacklistToken ⟨some ⟨true, []⟩, true⟩ 5 "tok" 3 = Except.ok ⟨some ⟨true, []⟩, true⟩ ∧
    CacheValidToken ⟨some ⟨true, []⟩, true⟩ 5 "tok" 7 3 = Except.ok ⟨some ⟨true, []⟩, true⟩ ∧
    BlacklistToken ⟨some ⟨true, []⟩, true⟩ 5 "tok" 9 =
      Except.ok ⟨some ⟨true, [⟨jwtBlacklistKey (hashToken "tok"), "1", 4⟩]⟩, true⟩ ∧
    CacheValidToken ⟨some ⟨true, []⟩, true⟩ 5 "tok" 7 9 =
      Except.ok ⟨some ⟨true, [⟨jwtValidKey (hashToken "tok"), "7", 4⟩]⟩, true⟩ := by
  have hlive := (c4_ttl_policy ⟨true, []⟩ 5 9 7 "tok" rfl).2 (by omega)
  have hexp := (c4_ttl_policy ⟨true, []⟩ 5 3 7 "tok" rfl).1 (by omega)
  refine ⟨hexp.1, hexp.2, ?_, ?_⟩
  · simpa using hlive.1
  · simpa using hlive.2

/-! ## C6 -/

/-- C6: `IsBlacklisted` fails open: with caching enabled but the store
unreachable it returns `false` ("not revoked") and logs the failure as an
error-level event, and no request through `AuthMiddleware` backed by that
store is ever aborted as revoked. -/
theorem c6_is_blacklisted_fails_open (r : RedisStore) (token : String) (hup : r.up = false) :
    IsBlacklisted ⟨some r, true⟩ token =
      (false, [⟨LogLevel.error, "Failed to check token blacklist"⟩]) ∧
    ∀ (cfg : TokenConfig) (decode : String → Option JwtToken) (now : Int) (authHeader : String)
      (resp : ApiResponse),
      authMiddleware cfg decode (some ⟨some r, true⟩) now authHeader ≠
        AuthOutcome.abort AuthError.revoked resp := by
  have hb : ∀ t : String, IsBlacklisted ⟨some r, true⟩ t =
      (false, [⟨LogLevel.error, "Failed to check token blacklist"⟩]) := by
    intro t
    unfold IsBlacklisted redisExists
    simp [hup]
  refine ⟨hb token, ?_⟩
  intro cfg decode now authHeader resp
  unfold authMiddleware
  cases hex : extractBearer authHeader with
  | error e =>
    rcases extractBearer_error _ _ hex with h | h <;> subst h <;> simp
  | ok tok =>
    have hg : GetCachedToken ⟨some r, true⟩ tok = (0, false) := by
      unfold GetCachedToken redisGet
      simp [hup]
    simp only [hb tok, hg]
    cases hv : validateTokenStr decode now tok cfg.accessTokenSecret bearerScheme with
    | error e =>
      have := validateTokenStr_error_ne_revoked _ _ _ _ _ _ hv
      simp [this]
    | ok claims => simp

/-- C6 witness: an unreachable store. -/
theorem c6_is_blacklisted_fails_open_witness :
    IsBlacklisted ⟨some ⟨false, []⟩, true⟩ "tok" =
      (false, [⟨LogLevel.error, "Failed to check token blacklist"⟩]) ∧
    ∀ (cfg : TokenConfig) (decode : String → Option JwtToken) (now : Int) (authHeader : String)
      (resp : ApiResponse),
      authMiddleware cfg decode (some ⟨some ⟨false, []⟩, true⟩) now authHeader ≠
        AuthOutcome.abort AuthError.revoked resp :=
  c6_is_blacklisted_fails_open ⟨false, []⟩ "tok" rfl

/-! ## C7 -/

/-- C7: the claim's HTTP status classes are not what the code sends: every
response produced by `handleError` goes out with HTTP status 200 (because
`common.ResponseApi` hardcodes `fiber.StatusOK`), even though `handleError`
computes — and only logs — exactly the 400/401 statuses the claim
describes.  In particular a request with a missing Authorization header is
answered 200, not a 400-class status. -/
theorem c7_handle_error_always_200 :
    (∀ e : AuthError, (handleError e).httpStatus = 200) ∧
    handleErrorLoggedStatus AuthError.missingToken = 400 ∧
    handleErrorLoggedStatus AuthError.malformedToken = 400 ∧
    handleErrorLoggedStatus AuthError.tokenExpired = 401 ∧
    handleErrorLoggedStatus AuthError.invalidSignature = 401 ∧
    handleErrorLoggedStatus AuthError.revoked = 401 ∧
    (∀ (cfg : TokenConfig) (decode : String → Option JwtToken) (cache : Option JWTCache)
      (now : Int),
      authMiddleware cfg decode cache now "" =
        AuthOutcome.abort AuthError.missingToken ⟨200, "ERROR", "missing token"⟩) :=
  ⟨fun _ => rfl, rfl, rfl, rfl, rfl, rfl, fun _ _ _ _ => rfl⟩

/-! ## C9 -/

/-- C9: frame difference of the cache-hit path: a request served from the
validity cache gets only `user` (holding the user id inside zero-valued
claims) and `user_id` published, with `username` left unset, so
`GetUserNameFromContext` fails for it; a request that goes through full
validation gets all three locals, and `GetUserNameFromContext` succeeds. -/
theorem c9_cache_hit_frame (cfg : TokenConfig) (decode : String → Option JwtToken)
    (jc : JWTCache) (now : Int) (hdr1 hdr2 tok1 tok2 : String) (uid : Int) (claims : Claims)
    (hex1 : extractBearer hdr1 = Except.ok tok1)
    (hbl1 : (IsBlacklisted jc tok1).1 = false)
    (hhit : GetCachedToken jc tok1 = (uid, true))
    (hex2 : extractBearer hdr2 = Except.ok tok2)
    (hbl2 : (IsBlacklisted jc tok2).1 = false)
    (hmiss : GetCachedToken jc tok2 = (0, false))
    (hval : validateTokenStr decode now tok2 cfg.accessTokenSecret bearerScheme =
      Except.ok claims) :
    authMiddleware cfg decode (some jc) now hdr1 =
      AuthOutcome.next ⟨some (cacheHitClaims uid), some uid, none⟩ (some jc) ∧
    getUserNameFromContext ⟨some (cacheHitClaims uid), some uid, none⟩ =
      Except.error "user not found in context" ∧
    (∃ c2, authMiddleware cfg decode (some jc) now hdr2 =
      AuthOutcome.next ⟨some claims, some claims.userId, some claims.userName⟩ c2) ∧
    getUserNameFromContext ⟨some claims, some claims.userId, some claims.userName⟩ =
      Except.ok claims.userName := by
  refine ⟨?_, rfl, ?_, rfl⟩
  · unfold authMiddleware
    rw [hex1]
    simp [hbl1, hhit]
  · unfold authMiddleware
    rw [hex2]
    simp only [hbl2, hmiss, hval]
    cases hc : claims.expiresAt with
    | none => exact ⟨some jc, by simp [hc]⟩
    | some exp =>
      cases hcv : CacheValidToken jc now tok2 claims.userId exp with
      | ok jc2 => exact ⟨some jc2, by simp [hc, hcv]⟩
      | error _ => exact ⟨some jc, by simp [hc, hcv]⟩

/-- C9 witness: a store caching token "t1" for user 7 and a decodable fresh
token "t2". -/
theorem c9_cache_hit_frame_witness :
    authMiddleware ⟨"s", 10, "r", 20⟩
      (fun t => if t = "t2" then
        some ⟨⟨9, "bob", "Bearer", some 100, some 0, some 0, "9", "client-side"⟩, "s", true⟩
        else none)
      (some ⟨some ⟨true, [⟨jwtValidKey (hashToken "t1"), "7", 5⟩]⟩, true⟩) 0 "Bearer t1" =
      AuthOutcome.next ⟨some (cacheHitClaims 7), some 7, none⟩
        (some ⟨some ⟨true, [⟨jwtValidKey (hashToken "t1"), "7", 5⟩]⟩, true⟩) ∧
    getUserNameFromContext ⟨some (cacheHitClaims 7), some 7, none⟩ =
      Except.error "user not found in context" ∧
    (∃ c2, authMiddleware ⟨"s", 10, "r", 20⟩
      (fun t => if t = "t2" then
        some ⟨⟨9, "bob", "Bearer", some 100, some 0, some 0, "9", "client-side"⟩, "s", true⟩
        else none)
      (some ⟨some ⟨true, [⟨jwtValidKey (hashToken "t1"), "7", 5⟩]⟩, true⟩) 0 "Bearer t2" =
      AuthOutcome.next
        ⟨some ⟨9, "bob", "Bearer", some 100, some 0, some 0, "9", "client-side"⟩, some 9,
          some "bob"⟩ c2) ∧
    getUserNameFromContext
      ⟨some ⟨9, "bob", "Bearer", some 100, some 0, some 0, "9", "client-side"⟩, some 9,
        some "bob"⟩ = Except.ok "bob" :=
  c9_cache_hit_frame ⟨"s", 10, "r", 20⟩
    (fun t => if t = "t2" then
      some ⟨⟨9, "bob", "Bearer", some 100, some 0, some 0, "9", "client-side"⟩, "s", true⟩
      else none)
    ⟨some ⟨true, [⟨jwtValidKey (hashToken "t1"), "7", 5⟩]⟩, true⟩ 0
    "Bearer t1" "Bearer t2" "t1" "t2" 7
    ⟨9, "bob", "Bearer", some 100, some 0, some 0, "9", "client-side"⟩
    (by decide) (by decide) (by decide) (by decide) (by decide) (by decide) (by decide)

/-! ## C10 -/

/-- C10: with the JWT cache constructed disabled (nil store client or
`enabled = false`), `BlacklistToken` and `InvalidateToken` report success
without storing anything, `IsBlacklisted` is constantly false, `Logout`
replies "Logged out successfully", and `AuthMiddleware` keeps accepting the
very same token afterwards (at any time `now2` at which it still validates):
revocation is impossible in this mode. -/
theorem c10_disabled_cache_no_revocation (cfg : TokenConfig)
    (decode : String → Option JwtToken) (now now2 expiry : Int)
    (authHeader tok : String) (claims : Claims) (rc : Option RedisStore) (en : Bool)
    (hdis : rc = none ∨ en = false)
    (hex : extractBearer authHeader = Except.ok tok)
    (hval : validateTokenStr decode now tok cfg.accessTokenSecret bearerScheme =
      Except.ok claims)
    (hval2 : validateTokenStr decode now2 tok cfg.accessTokenSecret bearerScheme =
      Except.ok claims)
    (hexp : claims.expiresAt = some expiry) :
    NewJWTCache rc en = ⟨none, false⟩ ∧
    BlacklistToken ⟨none, false⟩ now tok expiry = Except.ok ⟨none, false⟩ ∧
    InvalidateToken ⟨none, false⟩ tok = Except.ok ⟨none, false⟩ ∧
    IsBlacklisted ⟨none, false⟩ tok = (false, []) ∧
    logout cfg decode (some ⟨none, false⟩) now authHeader =
      (⟨200, none, "Logged out successfully"⟩, some ⟨none, false⟩) ∧
    authMiddleware cfg decode (some ⟨none, false⟩) now2 authHeader =
      AuthOutcome.next ⟨some claims, some claims.userId, some claims.userName⟩
        (some ⟨none, false⟩) := by
  obtain ⟨hne, s, hsplit, hfold⟩ := extractBearer_ok _ _ hex
  refine ⟨?_, rfl, rfl, rfl, ?_, ?_⟩
  · rcases hdis with h | h
    · subst h; rfl
    · subst h; cases rc <;> rfl
  · unfold logout
    rw [if_neg hne, hsplit]
    simp only [hfold, if_true, hval, hexp]
    rfl
  · unfold authMiddleware
    rw [hex]
    simp only [IsBlacklisted, GetCachedToken, hval2, hexp]
    cases claims
    simp_all [CacheValidToken]

/-- C10 witness: cache built from a nil client with the enable flag set. -/
theorem c10_disabled_cache_no_revocation_witness :
    NewJWTCache none true = ⟨none, false⟩ ∧
    BlacklistToken ⟨none, false⟩ 0 "tok" 100 = Except.ok ⟨none, false⟩ ∧
    InvalidateToken ⟨none, false⟩ "tok" = Except.ok ⟨none, false⟩ ∧
    IsBlacklisted ⟨none, false⟩ "tok" = (false, []) ∧
    logout ⟨"s", 10, "r", 20⟩
      (fun t => if t = "tok" then
        some ⟨⟨7, "alice", "Bearer", some 100, some 0, some 0, "7", "client-side"⟩, "s", true⟩
        else none)
      (some ⟨none, false⟩) 0 "Bearer tok" =
      (⟨200, none, "Logged out successfully"⟩, some ⟨none, false⟩) ∧
    authMiddleware ⟨"s", 10, "r", 20⟩
      (fun t => if t = "tok" then
        some ⟨⟨7, "alice", "Bearer", some 100, some 0, some 0, "7", "client-side"⟩, "s", true⟩
        else none)
      (some ⟨none, false⟩) 50 "Bearer tok" =
      AuthOutcome.next
        ⟨some ⟨7, "alice", "Bearer", some 100, some 0, some 0, "7", "client-side"⟩, some 7,
          some "alice"⟩ (some ⟨none, false⟩) :=
  c10_disabled_cache_no_revocation ⟨"s", 10, "r", 20⟩
    (fun t => if t = "tok" then
      some ⟨⟨7, "alice", "Bearer", some 100, some 0, some 0, "7", "client-side"⟩, "s", true⟩
      else none)
    0 50 100 "Bearer tok" "tok"
    ⟨7, "alice", "Bearer", some 100, some 0, some 0, "7", "client-side"⟩
    none true (Or.inl rfl) (by decide) (by decide) (by decide) rfl

/-! ## C5 -/

/-- C5 counterexample: with JWT caching enabled and the revocation store
unreachable, logging out with a valid token is answered HTTP 500
`logout_failed` — a failed logout — contrary to the claim that the logout
is still acknowledged as successful when the store is unavailable. -/
theorem c5_logout_store_failure_counterexample :
    logout ⟨"s", 10, "r", 20⟩
      (fun t => if t = "tok" then
        some ⟨⟨7, "alice", "Bearer", some 100, some 0, some 0, "7", "client-side"⟩, "s", true⟩
        else none)
      (some ⟨some ⟨false, []⟩, true⟩) 0 "Bearer tok" =
      (⟨500, some "logout_failed", "Failed to complete logout"⟩,
        some ⟨some ⟨false, []⟩, true⟩) := by decide

/-- C5 (amended): a failure of the revocation-store write during logout is
returned to the caller as HTTP 500 `logout_failed`; logout is acknowledged
as successful despite the impossibility of revocation only when the cache
is disabled (nil cache pointer or disabled cache instance). -/
theorem c5_logout_store_failure_amended (cfg : TokenConfig)
    (decode : String → Option JwtToken) (now expiry : Int) (authHeader tok : String)
    (claims : Claims) (r : RedisStore)
    (hex : extractBearer authHeader = Except.ok tok)
    (hval : validateTokenStr decode now tok cfg.accessTokenSecret bearerScheme =
      Except.ok claims)
    (hexp : claims.expiresAt = some expiry) (hlive : now < expiry) (hup : r.up = false) :
    logout cfg decode (some ⟨some r, true⟩) now authHeader =
      (⟨500, some "logout_failed", "Failed to complete logout"⟩, some ⟨some r, true⟩) ∧
    logout cfg decode (some ⟨none, false⟩) now authHeader =
      (⟨200, none, "Logged out successfully"⟩, some ⟨none, false⟩) ∧
    logout cfg decode none now authHeader =
      (⟨200, none, "Logout acknowledged (caching disabled, token will expire naturally)"⟩,
        none) := by
  obtain ⟨hne, s, hsplit, hfold⟩ := extractBearer_ok _ _ hex
  have httl : ¬ (expiry - now ≤ 0) := by omega
  refine ⟨?_, ?_, ?_⟩
  · unfold logout
    rw [if_neg hne, hsplit]
    simp only [hfold, if_true, hval, hexp]
    unfold expireJwtCache BlacklistToken redisSet
    simp [hexp, httl, hup]
  · unfold logout
    rw [if_neg hne, hsplit]
    simp only [hfold, if_true, hval, hexp]
    rfl
  · unfold logout
    rw [if_neg hne, hsplit]
    simp only [hfold, if_true, hval, hexp]

/-- C5 amended witness: concrete down store versus disabled cache. -/
theorem c5_logout_store_failure_amended_witness :
    logout ⟨"k", 10, "r", 20⟩
      (fun t => if t = "t9" then
        some ⟨⟨8, "carol", "Bearer", some 60, some 0, some 0, "8", "client-side"⟩, "k", true⟩
        else none)
      (some ⟨some ⟨false, [⟨"x", "y", 1⟩]⟩, true⟩) 0 "Bearer t9" =
      (⟨500, some "logout_failed", "Failed to complete logout"⟩,
        some ⟨some ⟨false, [⟨"x", "y", 1⟩]⟩, true⟩) ∧
    logout ⟨"k", 10, "r", 20⟩
      (fun t => if t = "t9" then
        some ⟨⟨8, "carol", "Bearer", some 60, some 0, some 0, "8", "client-side"⟩, "k", true⟩
        else none)
      (some ⟨none, false⟩) 0 "Bearer t9" =
      (⟨200, none, "Logged out successfully"⟩, some ⟨none, false⟩) ∧
    logout ⟨"k", 10, "r", 20⟩
      (fun t => if t = "t9" then
        some ⟨⟨8, "carol", "Bearer", some 60, some 0, some 0, "8", "client-side"⟩, "k", true⟩
        else none)
      none 0 "Bearer t9" =
      (⟨200, none, "Logout acknowledged (caching disabled, token will expire naturally)"⟩,
        none) :=
  c5_logout_store_failure_amended ⟨"k", 10, "r", 20⟩
    (fun t => if t = "t9" then
      some ⟨⟨8, "carol", "Bearer", some 60, some 0, some 0, "8", "client-side"⟩, "k", true⟩
      else none)
    0 60 "Bearer t9" "t9"
    ⟨8, "carol", "Bearer", some 60, some 0, some 0, "8", "client-side"⟩
    ⟨false, [⟨"x", "y", 1⟩]⟩ (by decide) (by decide) rfl (by decide) rfl

/-! ## C8 -/

theorem limiterRun_in_window (maxReq : Nat) (W e : Int) (k : Nat) (ts : List Int)
    (hlt : ∀ t ∈ ts, t < e) (hcap : k + ts.length ≤ maxReq) :
    limiterRun maxReq W ⟨k, e⟩ ts = (List.replicate ts.length true, ⟨k + ts.length, e⟩) := by
  induction ts generalizing k with
  | nil => simp [limiterRun]
  | cons t ts ih =>
    have ht : ¬ (e ≤ t) := by
      have := hlt t (List.mem_cons_self t ts)
      omega
    have hcnt : ¬ (maxReq < k + 1) := by
      have := hcap
      simp at this
      omega
    have hstep : limiterAllow maxReq W ⟨k, e⟩ t = (true, ⟨k + 1, e⟩) := by
      unfold limiterAllow
      simp [ht, hcnt]
    have htail := ih (k + 1) (fun x hx => hlt x (List.mem_cons_of_mem t hx))
      (by simp at hcap; omega)
    unfold limiterRun
    simp only [hstep, htail]
    have harith : k + 1 + ts.length = k + (ts.length + 1) := by omega
    simp [List.replicate_succ, harith]

/-- C8: per-tier rate limiting over the window counter: starting from an
expired window, a first request at `t0` and `N - 1` further requests inside
the window are all allowed (reaching count `N`), the next in-window request
is rejected while the general and auth tiers answer rejections with 429 and
their distinct error payloads, and the first request after the window
expires is allowed again with a fresh count of 1. -/
theorem c8_rate_limit_per_tier (N : Nat) (W t0 e0 tLast t2 : Int) (ts : List Int)
    (cfg : RateLimitConfig)
    (hN : 1 ≤ N) (he0 : e0 ≤ t0) (hlen : ts.length = N - 1)
    (hts : ∀ t ∈ ts, t < t0 + W) (hLast : tLast < t0 + W) (ht2 : t0 + W ≤ t2) :
    limiterRun N W ⟨0, e0⟩ (t0 :: ts) = (List.replicate N true, ⟨N, t0 + W⟩) ∧
    limiterAllow N W ⟨N, t0 + W⟩ tLast = (false, ⟨N, t0 + W⟩) ∧
    limiterAllow N W ⟨N, t0 + W⟩ t2 = (true, ⟨1, t2 + W⟩) ∧
    limitReachedResponse cfg = ⟨429, some "rate_limit_exceeded", resolvedLimitReached cfg⟩ ∧
    authLimitReachedResponse cfg =
      ⟨429, some "auth_rate_limit_exceeded",
        "Too many authentication attempts. Please try again in " ++
          toString (resolvedAuthExpiration cfg) ++ "."⟩ := by
  refine ⟨?_, ?_, ?_, rfl, rfl⟩
  · have hstep : limiterAllow N W ⟨0, e0⟩ t0 = (true, ⟨1, t0 + W⟩) := by
      unfold limiterAllow
      have h1 : ¬ (N < 0 + 1) := by omega
      simp [he0, h1]
    have htail := limiterRun_in_window N W (t0 + W) 1 ts hts (by omega)
    unfold limiterRun
    simp only [hstep, htail]
    have hrep : List.replicate N true = true :: List.replicate (N - 1) true := by
      cases N with
      | zero => omega
      | succ n => simp [List.replicate_succ]
    rw [hrep, hlen]
    have harith : 1 + ts.length = N := by omega
    simp [hlen, harith]
    omega
  · unfold limiterAllow
    have h1 : ¬ (t0 + W ≤ tLast) := by omega
    have h2 : N < N + 1 := by omega
    simp [h1, h2]
  · unfold limiterAllow
    have h1 : ¬ (N < 0 + 1) := by omega
    simp [ht2, h1]

/-- C8 witness: tier max 2, window 10: requests at 0 and 3 allowed, at 5
rejected, at 10 allowed again with count 1. -/
theorem c8_rate_limit_per_tier_witness :
    limiterRun 2 10 ⟨0, 0⟩ (0 :: [3]) = (List.replicate 2 true, ⟨2, 0 + 10⟩) ∧
    limiterAllow 2 10 ⟨2, 0 + 10⟩ 5 = (false, ⟨2, 0 + 10⟩) ∧
    limiterAllow 2 10 ⟨2, 0 + 10⟩ 10 = (true, ⟨1, 10 + 10⟩) ∧
    limitReachedResponse ⟨true, 2, 10, "", true, 2, 10⟩ =
      ⟨429, some "rate_limit_exceeded", resolvedLimitReached ⟨true, 2, 10, "", true, 2, 10⟩⟩ ∧
    authLimitReachedResponse ⟨true, 2, 10, "", true, 2, 10⟩ =
      ⟨429, some "auth_rate_limit_exceeded",
        "Too many authentication attempts. Please try again in " ++
          toString (resolvedAuthExpiration ⟨true, 2, 10, "", true, 2, 10⟩) ++ "."⟩ :=
  c8_rate_limit_per_tier 2 10 0 0 5 10 [3] ⟨true, 2, 10, "", true, 2, 10⟩
    (by decide) (by decide) (by decide) (by decide) (by decide) (by decide)

end BaseService
